import Mathlib

/-!
Shallow embedding of the devspace configuration resolution and validation
engine (package configutil, plus the helm deployment client constructor).

Conventions of the embedding:
- Go nil-able pointers and nil-able slices/maps become `Option`.
- Go maps iterated by `range` become association lists with a fixed order.
- The filesystem is an explicit read oracle `FS`; a file that is missing,
  unreadable, or unparseable reads as `none` (IO and parse failures are
  collapsed, no claim distinguishes them).
- Package-global mutable state (`config`, `getConfigOnce`, `getConfigOnceErr`)
  becomes an explicit `GlobalState` record threaded through the operations,
  plus a `pipelineRuns` counter that counts executions of the once-guarded
  body (the counter is metadata of the model, not of the source).
- In-place mutation of a caller-supplied object is modelled by returning the
  post-call value of that object alongside the ordinary results.
- Error values built with errors.Errorf carry their format arguments as
  constructor arguments of `ConfigError` instead of rendered strings.
-/

namespace DevSpace

/-- A yaml scalar value inside a raw override document. -/
inductive Val where
  | vnat : Nat → Val
  | vstr : String → Val
deriving DecidableEq

/-- An untyped yaml mapping (map[interface{}]interface{} with string keys),
modelled as an association list whose order is the document order. -/
abbrev Values := List (String × Val)

/-- Read oracle for the file system: `read p` is the parsed yaml document at
path `p`, or `none` when the file is missing, unreadable or malformed. -/
structure FS where
  read : String → Option Values

/-- latest.PortMapping; its fields are never inspected by the validator. -/
structure PortMapping where
  localPort : Nat
deriving DecidableEq

/-- latest.PortForwardingConfig as used by validate: ImageName, LabelSelector,
PortMappings. -/
structure PortConfig where
  imageName : String
  labelSelector : Option (List (String × String))
  portMappings : Option (List PortMapping)
deriving DecidableEq

/-- latest.SyncConfig as used by validate: ImageName, LabelSelector. -/
structure SyncConfig where
  imageName : String
  labelSelector : Option (List (String × String))
deriving DecidableEq

/-- latest.InteractiveImageConfig as used by validate: Name. -/
structure InteractiveImage where
  name : String
deriving DecidableEq

/-- latest.InteractiveConfig as used by validate: Images (a slice, ranging
over nil and over the empty slice coincide, so a plain list). -/
structure InteractiveConfig where
  images : List InteractiveImage
deriving DecidableEq

/-- latest.CommandConfig as used by validate: Name, Command. -/
structure CommandConfig where
  name : String
  command : String
deriving DecidableEq

/-- latest.HookConfig as used by validate: Command. -/
structure HookConfig where
  command : String
deriving DecidableEq

/-- latest.CustomConfig as used by validate: Command. -/
structure CustomConfig where
  command : String
deriving DecidableEq

/-- latest.BuildConfig as used by validate: Custom. -/
structure BuildConfig where
  custom : Option CustomConfig
deriving DecidableEq

/-- latest.ImageConfig as used by validate: Image, Build. -/
structure ImageConfig where
  image : String
  build : Option BuildConfig
deriving DecidableEq

/-- latest.ChartConfig: Name, Version, RepoURL (fields visible in
helm/client.go). -/
structure ChartConfig where
  name : String
  version : String
  repoURL : String
deriving DecidableEq

/-- latest.HelmConfig as used by validate and helm.New: Chart, ComponentChart,
ValuesFiles, Values, TillerNamespace. -/
structure HelmConfig where
  chart : Option ChartConfig
  componentChart : Option Bool
  valuesFiles : Option (List String)
  values : Option Values
  tillerNamespace : String
deriving DecidableEq

instance : Inhabited HelmConfig :=
  ⟨{ chart := none, componentChart := none, valuesFiles := none,
     values := none, tillerNamespace := "" }⟩

/-- latest.KubectlConfig as used by validate: Manifests. -/
structure KubectlConfig where
  manifests : Option (List String)
deriving DecidableEq

/-- latest.DeploymentConfig as used by validate: Name, Helm, Kubectl. -/
structure DeploymentConfig where
  name : String
  helm : Option HelmConfig
  kubectl : Option KubectlConfig
deriving DecidableEq

/-- latest.DevConfig as used by validate: Ports, Sync, Interactive. -/
structure DevConfig where
  ports : Option (List PortConfig)
  sync : Option (List SyncConfig)
  interactive : Option InteractiveConfig
deriving DecidableEq

/-- latest.Config restricted to the sections the core inspects. Images is a
Go map; it is modelled as an association list with a fixed iteration order. -/
structure Config where
  dev : Option DevConfig
  commands : Option (List CommandConfig)
  hooks : Option (List HookConfig)
  images : Option (List (String × ImageConfig))
  deployments : Option (List DeploymentConfig)
deriving DecidableEq

/-- Errors of the core. Each constructor corresponds to one errors.Errorf
(or fmt.Errorf) site in the source; the constructor arguments are the format
arguments of that site, so an error "names" an index or a deployment exactly
when the constructor carries it. -/
inductive ConfigError where
  /-- IO failure reading a file (ioutil.ReadFile or an oracle collaborator). -/
  | ioError (path : String)
  /-- An error produced by the ParseConfig collaborator. -/
  | parseFailed (msg : String)
  /-- An error produced by the generated-state store. -/
  | generatedFailed (msg : String)
  /-- "Error in config: imageName and label selector are nil in port config at index %d". -/
  | portTargetMissing (index : Nat)
  /-- "Error in config: portMappings is empty in port config at index %d". -/
  | portMappingsEmpty (index : Nat)
  /-- "Error in config: imageName and label selector are nil in sync config at index %d". -/
  | syncTargetMissing (index : Nat)
  /-- "Error in config: Unnamed interactive image config at index %d". -/
  | interactiveImageUnnamed (index : Nat)
  /-- "commands[%d].name is required". -/
  | commandNameRequired (index : Nat)
  /-- "commands[%d].command is required". -/
  | commandCommandRequired (index : Nat)
  /-- "hooks[%d].command is required". -/
  | hookCommandRequired (index : Nat)
  /-- "images.%s.image is required". -/
  | imageRequired (name : String)
  /-- "images.%s.build.custom.command is required". -/
  | customCommandRequired (name : String)
  /-- "deployments[%d].name is required". -/
  | deploymentNameRequired (index : Nat)
  /-- "Please specify either helm or kubectl as deployment type in deployment %s".
  Note: this error carries the deployment NAME, not its index. -/
  | deploymentTypeMissing (name : String)
  /-- "deployments[%d].helm.chart and ... or deployments[%d].helm.componentChart is required". -/
  | helmChartRequired (index : Nat)
  /-- "deployments[%d].kubectl.manifests is required". -/
  | kubectlManifestsRequired (index : Nat)
  /-- "deployments[%d].helm.componentChart: component values are incorrect: %v". -/
  | componentValuesIncorrect (index : Nat)
  /-- "devspace-configs.yaml is not supported anymore in devspace v4. ..." -/
  | legacyConfigsNotSupported
  /-- "Couldn not find %s: %v" (the config-file-missing error of GetConfigFromPath). -/
  | configNotFound (configPath : String)
deriving DecidableEq

/-- constants.DefaultConfigPath (the constants package is outside src/; the
value is recoverable from the source error messages, which name
devspace.yaml). -/
def DefaultConfigPath : String := "devspace.yaml"

/-- constants.DefaultConfigsPath (legacy multi-config marker; named literally
in the source error message). -/
def DefaultConfigsPath : String := "devspace-configs.yaml"

/-- filepath.Join for the two-segment joins made by the source. -/
def joinPath (a b : String) : String := a ++ "/" ++ b

/-- filepath.Abs, modelled as the identity on paths: its only failure mode
(working directory unavailable) is an OS-level condition outside the model. -/
def absPath (p : String) : String := p

/-- Replace the binding of key `k` in place, or append it when absent. -/
def setKey : Values → String → Val → Values
  | [], k, v => [(k, v)]
  | (k0, v0) :: rest, k, v =>
    if k0 = k then (k, v) :: rest else (k0, v0) :: setKey rest k v

/-- Modelled from the spec: merge.Values(dest).MergeInto(src) from the package
pkg/devspace/deploy/helm/merge, which is not under src/. Per section 4.4 the
override sources "are merged in file-list order first, then the inline block
last (inline wins on conflict)", so MergeInto writes every key of `src` into
`dest`, the source side winning on conflicts. -/
def mergeInto (dest src : Values) : Values :=
  src.foldl (fun acc kv => setKey acc kv.1 kv.2) dest

/-- Modelled from the spec: the top-level keys of the shared-chart typed value
schema (latest.ComponentConfig, outside src/). The set contains the keys that
appear in the specification examples for shared-chart override values. -/
def componentConfigKeys : List String :=
  ["replicas", "image", "containers", "service"]

/-- Modelled from the spec: yaml.UnmarshalStrict of the merged override
document into latest.ComponentConfig succeeds exactly when every top-level
field is a known field of the schema ("a decode failure (unknown field,
wrong type) is a fatal InvalidOverrideError"). -/
def unmarshalStrictComponent (v : Values) : Bool :=
  v.all (fun kv => componentConfigKeys.contains kv.1)

/-- The override-document accumulation of validate for a component-chart
deployment (source lines 291-311): each declared values file is resolved to
an absolute path and merged in file-list order, an unreadable file being
skipped (the err == nil guard), and the inline Values block is merged last. -/
def loadComponentValues (fs : FS) (h : HelmConfig) : Values :=
  let fromFiles := (h.valuesFiles.getD []).foldl
    (fun acc overridePath =>
      match fs.read (absPath overridePath) with
      | some doc => mergeInto acc doc
      | none => acc) []
  match h.values with
  | some v => mergeInto fromFiles v
  | none => fromFiles

/-- deployConfig.Helm.Chart == nil or Chart.Name == "", and ComponentChart
is nil or false (the condition of the helm-chart-required error). -/
def chartMissing (h : HelmConfig) : Bool :=
  (match h.chart with
   | none => true
   | some c => c.name = "") &&
  (match h.componentChart with
   | none => true
   | some b => b = false)

/-- The helm kind is present but misses both a chart name and the component
chart opt-in. -/
def helmChartMissing : Option HelmConfig → Bool
  | none => false
  | some h => chartMissing h

/-- The kubectl kind is present but Manifests is nil. -/
def kubectlManifestsMissing : Option KubectlConfig → Bool
  | none => false
  | some k => k.manifests.isNone

/-- deployConfig.Helm != nil and ComponentChart != nil and true. -/
def isComponentChart : Option HelmConfig → Bool
  | none => false
  | some h =>
    match h.componentChart with
    | some b => b
    | none => false

/-- Build != nil and Build.Custom != nil and Build.Custom.Command == "". -/
def customCommandEmpty : Option BuildConfig → Bool
  | none => false
  | some b =>
    match b.custom with
    | none => false
    | some c => c.command = ""

/-- The Dev.Ports loop of validate. -/
def validatePorts : Nat → List PortConfig → Option ConfigError
  | _, [] => none
  | index, port :: rest =>
    if port.imageName = "" ∧ port.labelSelector = none then
      some (.portTargetMissing index)
    else if port.portMappings = none then
      some (.portMappingsEmpty index)
    else validatePorts (index + 1) rest

/-- The Dev.Sync loop of validate. -/
def validateSyncs : Nat → List SyncConfig → Option ConfigError
  | _, [] => none
  | index, sc :: rest =>
    if sc.imageName = "" ∧ sc.labelSelector = none then
      some (.syncTargetMissing index)
    else validateSyncs (index + 1) rest

/-- The Dev.Interactive.Images loop of validate. -/
def validateInteractiveImages : Nat → List InteractiveImage → Option ConfigError
  | _, [] => none
  | index, imageConf :: rest =>
    if imageConf.name = "" then some (.interactiveImageUnnamed index)
    else validateInteractiveImages (index + 1) rest

/-- The Commands loop of validate. -/
def validateCommands : Nat → List CommandConfig → Option ConfigError
  | _, [] => none
  | index, command :: rest =>
    if command.name = "" then some (.commandNameRequired index)
    else if command.command = "" then some (.commandCommandRequired index)
    else validateCommands (index + 1) rest

/-- The Hooks loop of validate. -/
def validateHooks : Nat → List HookConfig → Option ConfigError
  | _, [] => none
  | index, hookConfig :: rest =>
    if hookConfig.command = "" then some (.hookCommandRequired index)
    else validateHooks (index + 1) rest

/-- The Images loop of validate, including the duplicated empty-image check
of source lines 270-272 (the third branch below). -/
def validateImages : List (String × ImageConfig) → Option ConfigError
  | [] => none
  | (imageConfigName, imageConf) :: rest =>
    if imageConf.image = "" then some (.imageRequired imageConfigName)
    else if customCommandEmpty imageConf.build then
      some (.customCommandRequired imageConfigName)
    else if imageConf.image = "" then some (.imageRequired imageConfigName)
    else validateImages rest

/-- The Images loop with the second, duplicated empty-image check removed
(the variant the refinement claim compares against). -/
def validateImagesSingleCheck : List (String × ImageConfig) → Option ConfigError
  | [] => none
  | (imageConfigName, imageConf) :: rest =>
    if imageConf.image = "" then some (.imageRequired imageConfigName)
    else if customCommandEmpty imageConf.build then
      some (.customCommandRequired imageConfigName)
    else validateImagesSingleCheck rest

/-- The Deployments loop of validate, including the component-chart override
reconciliation. The yaml.Marshal failure branch (source lines 313-316) is not
modelled: marshaling an in-memory map value does not fail. -/
def validateDeployments (fs : FS) : Nat → List DeploymentConfig → Option ConfigError
  | _, [] => none
  | index, deployConfig :: rest =>
    if deployConfig.name = "" then some (.deploymentNameRequired index)
    else if deployConfig.helm = none ∧ deployConfig.kubectl = none then
      some (.deploymentTypeMissing deployConfig.name)
    else if helmChartMissing deployConfig.helm then
      some (.helmChartRequired index)
    else if kubectlManifestsMissing deployConfig.kubectl then
      some (.kubectlManifestsRequired index)
    else if isComponentChart deployConfig.helm then
      if unmarshalStrictComponent
          (loadComponentValues fs (deployConfig.helm.getD default)) then
        validateDeployments fs (index + 1) rest
      else some (.componentValuesIncorrect index)
    else validateDeployments fs (index + 1) rest

/-- First-failure composition: the error of `a` when there is one, else `b`. -/
def firstErr (a b : Option ConfigError) : Option ConfigError :=
  match a with
  | some e => some e
  | none => b

/-- The validate function (source lines 213-328). Sections are checked in
source order and the first violated invariant is returned. The filesystem
oracle is a real input: the component-chart branch reads value files. -/
def validate (fs : FS) (config : Config) : Option ConfigError :=
  firstErr
    (match config.dev with
     | none => none
     | some dev =>
       firstErr
         (match dev.ports with
          | none => none
          | some ports => validatePorts 0 ports)
         (firstErr
           (match dev.sync with
            | none => none
            | some syncs => validateSyncs 0 syncs)
           (match dev.interactive with
            | none => none
            | some interactive => validateInteractiveImages 0 interactive.images)))
    (firstErr
      (match config.commands with
       | none => none
       | some commands => validateCommands 0 commands)
      (firstErr
        (match config.hooks with
         | none => none
         | some hooks => validateHooks 0 hooks)
        (firstErr
          (match config.images with
           | none => none
           | some images => validateImages images)
          (match config.deployments with
           | none => none
           | some deployments => validateDeployments fs 0 deployments))))

/-- The variant of validate whose Images loop omits the second, duplicated
empty-image check; everything else is identical. -/
def validateSingleImageCheck (fs : FS) (config : Config) : Option ConfigError :=
  firstErr
    (match config.dev with
     | none => none
     | some dev =>
       firstErr
         (match dev.ports with
          | none => none
          | some ports => validatePorts 0 ports)
         (firstErr
           (match dev.sync with
            | none => none
            | some syncs => validateSyncs 0 syncs)
           (match dev.interactive with
            | none => none
            | some interactive => validateInteractiveImages 0 interactive.images)))
    (firstErr
      (match config.commands with
       | none => none
       | some commands => validateCommands 0 commands)
      (firstErr
        (match config.hooks with
         | none => none
         | some hooks => validateHooks 0 hooks)
        (firstErr
          (match config.images with
           | none => none
           | some images => validateImagesSingleCheck images)
          (match config.deployments with
           | none => none
           | some deployments => validateDeployments fs 0 deployments))))

/-- Modelled from the spec: generated.Config (the generated-state store is
outside src/). Per section 3 it holds the active profile name and a cache of
deployment metadata; only the active profile is inspected by the code under
src/, so the cache is elided. -/
structure GeneratedConfig where
  activeProfile : String
deriving DecidableEq

/-- configutil.ConfigOptions: Profile, KubeContext, LoadedVars, Vars. -/
structure ConfigOptions where
  profile : String
  kubeContext : String
  loadedVars : List (String × String)
  vars : List String
deriving DecidableEq

/-- The zero ConfigOptions value (the nil-replacement literal). -/
def defaultOptions : ConfigOptions :=
  { profile := "", kubeContext := "", loadedVars := [], vars := [] }

/-- The external collaborators of the resolver, as oracles. generated.LoadConfig,
generated.SaveConfig and ParseConfig are code of this repository outside src/;
they are modelled from the spec as abstract functions (sections 4.3 and 6):
the state store loads and saves the generated state, and ParseConfig is the
profile-overlay plus variable-substitution plus decode collaborator. The
package-global LoadedVars variable lives here as well. -/
structure Env where
  fs : FS
  genLoad : String → Except ConfigError GeneratedConfig
  genSave : GeneratedConfig → Option ConfigError
  parseConfig : GeneratedConfig → Values → ConfigOptions → Except ConfigError Config
  loadedVars : List (String × String)

/-- The package-global mutable state of configutil: the merged config, the
sync.Once guard, and getConfigOnceErr. `pipelineRuns` counts how many times
the once-guarded body has executed; it is observational metadata of the
model. -/
structure GlobalState where
  onceDone : Bool
  config : Option Config
  onceErr : Option ConfigError
  pipelineRuns : Nat
deriving DecidableEq

/-- GetRawConfig: read the file and parse it. The FS oracle collapses the IO
and parse failure modes into `none`. -/
def getRawConfig (fs : FS) (configPath : String) : Except ConfigError Values :=
  match fs.read configPath with
  | none => .error (.ioError configPath)
  | some rawMap => .ok rawMap

/-- GetConfigFromPath (source lines 130-166): stat the primary config file,
report the legacy marker if only that one is present, then load, parse and
validate. The log parameter of the source carries no data and is dropped. -/
def GetConfigFromPath (env : Env) (generatedConfig : GeneratedConfig)
    (basePath : String) (options : Option ConfigOptions) :
    Except ConfigError Config :=
  let opts := options.getD defaultOptions
  let configPath := joinPath basePath DefaultConfigPath
  if (env.fs.read configPath).isNone then
    if (env.fs.read (joinPath basePath DefaultConfigsPath)).isSome then
      .error .legacyConfigsNotSupported
    else
      .error (.configNotFound configPath)
  else
    match getRawConfig env.fs configPath with
    | .error e => .error e
    | .ok rawMap =>
      match env.parseConfig generatedConfig rawMap opts with
      | .error e => .error e
      | .ok loadedConfig =>
        match validate env.fs loadedConfig with
        | some e => .error e
        | none => .ok loadedConfig

/-- The in-place updates loadConfigOnce makes to the caller-supplied options
(source lines 186-193): profile auto-selection, profile suppression when
profiles are not allowed, and the unconditional LoadedVars overwrite. -/
def adjustOptions (env : Env) (generatedConfig : GeneratedConfig)
    (options : ConfigOptions) (allowProfile : Bool) : ConfigOptions :=
  let options :=
    if allowProfile ∧ generatedConfig.activeProfile ≠ "" ∧ options.profile = "" then
      { options with profile := generatedConfig.activeProfile }
    else if ¬ allowProfile then
      { options with profile := "" }
    else options
  { options with loadedVars := env.loadedVars }

/-- The body of the getConfigOnce.Do closure (source lines 173-208). Returns
the final value of the options object and the final values of the globals
`config` and `getConfigOnceErr`; note that on the fully successful path the
prior getConfigOnceErr is returned unchanged — the source never clears it. -/
def runOnceBody (env : Env) (s : GlobalState) (options : ConfigOptions)
    (allowProfile : Bool) :
    ConfigOptions × Option Config × Option ConfigError :=
  match env.genLoad options.profile with
  | .error e => (options, s.config, some e)
  | .ok generatedConfig =>
    let options := adjustOptions env generatedConfig options allowProfile
    match GetConfigFromPath env generatedConfig "." (some options) with
    | .error e => (options, none, some e)
    | .ok c =>
      match env.genSave generatedConfig with
      | some e => (options, some c, some e)
      | none => (options, some c, s.onceErr)

/-- loadConfigOnce (source lines 169-211): under the mutex, run the body at
most once per memoization epoch and return the globals. The third component
is the caller-visible post-call value of the options argument (a caller that
passed nil observes nothing). -/
def loadConfigOnce (env : Env) (s : GlobalState) (options : Option ConfigOptions)
    (allowProfile : Bool) :
    (Option Config × Option ConfigError) × GlobalState × Option ConfigOptions :=
  if s.onceDone then
    ((s.config, s.onceErr), s, options)
  else
    let r := runOnceBody env s (options.getD defaultOptions) allowProfile
    ((r.2.1, r.2.2),
     { onceDone := true, config := r.2.1, onceErr := r.2.2,
       pipelineRuns := s.pipelineRuns + 1 },
     options.map (fun _ => r.1))

/-- GetBaseConfig: loadConfigOnce with profile overlays suppressed. -/
def GetBaseConfig (env : Env) (s : GlobalState) (options : Option ConfigOptions) :
    (Option Config × Option ConfigError) × GlobalState × Option ConfigOptions :=
  loadConfigOnce env s options false

/-- GetConfig: loadConfigOnce with profile overlays allowed. -/
def GetConfig (env : Env) (s : GlobalState) (options : Option ConfigOptions) :
    (Option Config × Option ConfigError) × GlobalState × Option ConfigOptions :=
  loadConfigOnce env s options true

/-- ResetConfig (source lines 59-64): replaces the sync.Once with a fresh one.
The globals `config` and getConfigOnceErr are NOT touched. -/
def ResetConfig (s : GlobalState) : GlobalState :=
  { s with onceDone := false }

/-- Directory-level filesystem oracle for the root walk. A directory is a
list of path components with the deepest component first, so that the parent
directory is the tail of the list and the filesystem root is the empty
list. -/
structure DirFS where
  hasPrimary : List String → Bool
  hasLegacy : List String → Bool

/-- configExistsInPath (source lines 37-56): true when the global config is
already set (the testing shortcut), or when devspace.yaml exists, or when
the legacy devspace-configs.yaml exists. -/
def configExistsInPath (globalConfig : Option Config) (dfs : DirFS)
    (path : List String) : Bool :=
  if globalConfig.isSome then true
  else if dfs.hasPrimary path then true
  else if dfs.hasLegacy path then true
  else false

/-- The upward walk of SetDevSpaceRoot: check every directory from the start
up to and including the filesystem root, skipping the check at the home
directory, and stop at the first directory holding a marker. -/
def walkUp (globalConfig : Option Config) (dfs : DirFS) (home : List String) :
    List String → Option (List String)
  | [] =>
    if [] ≠ home ∧ configExistsInPath globalConfig dfs [] = true then some []
    else none
  | c :: cs =>
    if (c :: cs) ≠ home ∧ configExistsInPath globalConfig dfs (c :: cs) = true then
      some (c :: cs)
    else walkUp globalConfig dfs home cs

/-- SetDevSpaceRoot (source lines 331-368): walk upward from the working
directory; on a hit, change directory there and return found=true. The
second component is the resulting working directory (the os.Chdir side
effect), the third the returned error. The OS failure modes of the source
(Getwd, homedir resolution, Chdir) are outside the model, so the marker
logic itself never produces an error. -/
def SetDevSpaceRoot (globalConfig : Option Config) (dfs : DirFS)
    (home cwd : List String) : Bool × List String × Option ConfigError :=
  match walkUp globalConfig dfs home cwd with
  | some dir => (true, dir, none)
  | none => (false, cwd, none)

/-- helm.DevSpaceChartConfig (client.go lines 13-17). -/
def DevSpaceChartConfig : ChartConfig :=
  { name := "component-chart", version := "v0.0.6",
    repoURL := "https://charts.devspace.cloud" }

/-- helm.DeployConfig restricted to its data fields (client handles and the
logger are external). -/
structure HelmDeployConfig where
  tillerNamespace : String
  deploymentConfig : DeploymentConfig
  config : Config
deriving DecidableEq

/-- helm.New (client.go lines 33-51). The source dereferences
deployConfig.Helm without a nil check (its callers only construct helm
clients for helm deployments); the model uses the zero value there. The
second component is the caller-visible post-call value of the deployConfig
argument: the source assigns deployConfig.Helm.Chart through the shared
pointer, so the mutation is visible in the cached configuration. -/
def helmNew (config : Config) (kubeNamespace : String)
    (deployConfig : DeploymentConfig) : HelmDeployConfig × DeploymentConfig :=
  let h := deployConfig.helm.getD default
  let tillerNamespace :=
    if h.tillerNamespace ≠ "" then h.tillerNamespace else kubeNamespace
  let dc :=
    if h.componentChart = some true then
      { deployConfig with helm := some { h with chart := some DevSpaceChartConfig } }
    else deployConfig
  ({ tillerNamespace := tillerNamespace, deploymentConfig := dc, config := config },
   dc)

/-! Concrete fixtures used by the theorems and witnesses. -/

/-- A configuration with every section absent. -/
def emptyConfig : Config :=
  { dev := none, commands := none, hooks := none, images := none,
    deployments := none }

/-- A filesystem with no readable file. -/
def fsNone : FS := ⟨fun _ => none⟩

/-- A filesystem where the single value file "f" holds a field unknown to the
component chart schema. -/
def fsBad : FS :=
  ⟨fun p => if p = "f" then some [("bogus", Val.vnat 1)] else none⟩

/-- A component-chart helm section declaring the value file "f". -/
def ccHelm : HelmConfig :=
  { chart := none, componentChart := some true, valuesFiles := some ["f"],
    values := none, tillerNamespace := "" }

/-- A component-chart deployment named d. -/
def ccDep : DeploymentConfig :=
  { name := "d", helm := some ccHelm, kubectl := none }

/-- A configuration holding only the component-chart deployment. -/
def ccConfig : Config := { emptyConfig with deployments := some [ccDep] }

/-- An ordinary external chart. -/
def chart0 : ChartConfig := { name := "mychart", version := "1.0.0", repoURL := "" }

/-- A deployment with BOTH the helm and the kubectl kind configured. -/
def bothDep : DeploymentConfig :=
  { name := "d",
    helm := some { chart := some chart0, componentChart := none,
                   valuesFiles := none, values := none, tillerNamespace := "" },
    kubectl := some { manifests := some ["m"] } }

/-- A configuration holding only the both-kinds deployment. -/
def bothConfig : Config := { emptyConfig with deployments := some [bothDep] }

/-- A deployment with NEITHER kind configured. -/
def neitherDep : DeploymentConfig := { name := "d", helm := none, kubectl := none }

/-- A port-forward spec with a present but empty port-mapping list. -/
def emptyMapPort : PortConfig :=
  { imageName := "x", labelSelector := none, portMappings := some [] }

/-- A port-forward spec with no target and absent port mappings. -/
def badPort : PortConfig :=
  { imageName := "", labelSelector := none, portMappings := none }

/-- A configuration holding only the empty-port-mapping-list spec. -/
def portCfg : Config :=
  { emptyConfig with
    dev := some { ports := some [emptyMapPort], sync := none, interactive := none } }

/-- The value file of the chart-value reconciliation example: replicas 1. -/
def fileA : Values := [("replicas", Val.vnat 1)]

/-- The inline override block of the example: replicas 3, image x. -/
def inlineVals : Values := [("replicas", Val.vnat 3), ("image", Val.vstr "x")]

/-- A component-chart helm section declaring value file A and the inline
override block. -/
def helmA : HelmConfig :=
  { chart := none, componentChart := some true, valuesFiles := some ["A"],
    values := some inlineVals, tillerNamespace := "" }

/-- A filesystem where file A holds the replicas 1 document. -/
def fsA : FS := ⟨fun p => if p = "A" then some fileA else none⟩

/-- A configuration holding only the example component-chart deployment. -/
def cfgA : Config :=
  { emptyConfig with
    deployments := some [{ name := "d", helm := some helmA, kubectl := none }] }

/-- A directory tree where only the directory p carries the legacy marker and
no directory carries the primary one. -/
def legacyOnlyFS : DirFS :=
  { hasPrimary := fun _ => false, hasLegacy := fun d => decide (d = ["p"]) }

/-- A cold global state. -/
def s0 : GlobalState :=
  { onceDone := false, config := none, onceErr := none, pipelineRuns := 0 }

/-- A warm global state carrying a cached result. -/
def sWarm : GlobalState :=
  { onceDone := true, config := some emptyConfig, onceErr := none,
    pipelineRuns := 1 }

/-- An environment whose generated-state load fails. -/
def envFail : Env :=
  { fs := fsNone,
    genLoad := fun _ => .error (.generatedFailed "load"),
    genSave := fun _ => none,
    parseConfig := fun _ _ _ => .ok emptyConfig,
    loadedVars := [] }

/-- An environment where every pipeline step succeeds and the resolved model
is the empty configuration. -/
def envOk : Env :=
  { fs := ⟨fun p => if p = joinPath "." DefaultConfigPath then some [] else none⟩,
    genLoad := fun _ => .ok { activeProfile := "" },
    genSave := fun _ => none,
    parseConfig := fun _ _ _ => .ok emptyConfig,
    loadedVars := [] }

/-- An environment whose generated state carries the active profile p and
whose global loaded variables are nonempty. -/
def envProfile : Env :=
  { fs := fsNone,
    genLoad := fun _ => .ok { activeProfile := "p" },
    genSave := fun _ => none,
    parseConfig := fun _ _ _ => .ok emptyConfig,
    loadedVars := [("k", "v")] }

/-- An environment whose project directory holds only the legacy marker. -/
def envLegacy : Env :=
  { fs := ⟨fun p => if p = joinPath "." DefaultConfigsPath then some [] else none⟩,
    genLoad := fun _ => .ok { activeProfile := "" },
    genSave := fun _ => none,
    parseConfig := fun _ _ _ => .ok emptyConfig,
    loadedVars := [] }

/-- Whether some deployment of the configuration opts into the component
chart (the only case in which validate touches the filesystem). -/
def hasComponentChart (c : Config) : Bool :=
  match c.deployments with
  | none => false
  | some ds => ds.any (fun d => isComponentChart d.helm)

/-- A component-chart deployment that also carries an explicit chart. -/
def depCC : DeploymentConfig :=
  { name := "d",
    helm := some { chart := some chart0, componentChart := some true,
                   valuesFiles := none, values := none, tillerNamespace := "" },
    kubectl := none }

/-! Helper lemmas. -/

theorem firstErr_eq_none {a b : Option ConfigError} :
    firstErr a b = none ↔ a = none ∧ b = none := by
  cases a <;> simp [firstErr]

theorem validateImages_eq_singleCheck (imgs : List (String × ImageConfig)) :
    validateImages imgs = validateImagesSingleCheck imgs := by
  induction imgs with
  | nil => rfl
  | cons hd tl ih =>
    obtain ⟨name, img⟩ := hd
    by_cases h1 : img.image = "" <;>
      by_cases h2 : customCommandEmpty img.build = true <;>
        simp [validateImages, validateImagesSingleCheck, h1, h2, ih]

theorem runOnceBody_fst (env : Env) (s : GlobalState) (opts : ConfigOptions)
    (allowProfile : Bool) (g : GeneratedConfig)
    (h : env.genLoad opts.profile = Except.ok g) :
    (runOnceBody env s opts allowProfile).1 =
      adjustOptions env g opts allowProfile := by
  unfold runOnceBody
  rw [h]
  dsimp only
  split
  · rfl
  · split <;> rfl

/-! Claim theorems. -/

/-- C9: the second empty-image check in the Images loop of the validator is
dead code — validate coincides extensionally with the variant in which that
check is removed, on every configuration and every filesystem state. -/
theorem c9_second_image_check_dead (fs : FS) (config : Config) :
    validate fs config = validateSingleImageCheck fs config := by
  unfold validate validateSingleImageCheck
  simp only [validateImages_eq_singleCheck]

/-- C1: memoized resolution. On a cold cache the call executes the
once-guarded pipeline body exactly once, marks the cache warm and caches
exactly the returned (config, error) pair; on a warm cache every call —
through GetConfig or GetBaseConfig, with any options and any environment —
returns the cached pair and leaves the state (the pipeline-run counter
included) untouched. -/
theorem c1_memoization (env envB : Env) (s : GlobalState)
    (o1 o2 o3 : Option ConfigOptions) (allowProfile : Bool) :
    (s.onceDone = false →
      (loadConfigOnce env s o1 allowProfile).2.1.pipelineRuns = s.pipelineRuns + 1 ∧
      (loadConfigOnce env s o1 allowProfile).2.1.onceDone = true ∧
      (loadConfigOnce env s o1 allowProfile).1 =
        ((loadConfigOnce env s o1 allowProfile).2.1.config,
         (loadConfigOnce env s o1 allowProfile).2.1.onceErr)) ∧
    (s.onceDone = true →
      GetConfig env s o2 = ((s.config, s.onceErr), s, o2) ∧
      GetBaseConfig envB s o3 = ((s.config, s.onceErr), s, o3)) := by
  constructor
  · intro h
    simp [loadConfigOnce, h]
  · intro h
    simp [GetConfig, GetBaseConfig, loadConfigOnce, h]

/-- Witness for C1 at a concrete cold state and a concrete warm state. -/
theorem c1_memoization_witness :
    ((loadConfigOnce envFail s0 none true).2.1.pipelineRuns = s0.pipelineRuns + 1 ∧
     (loadConfigOnce envFail s0 none true).2.1.onceDone = true ∧
     (loadConfigOnce envFail s0 none true).1 =
       ((loadConfigOnce envFail s0 none true).2.1.config,
        (loadConfigOnce envFail s0 none true).2.1.onceErr)) ∧
    (GetConfig envOk sWarm (some defaultOptions) =
       ((sWarm.config, sWarm.onceErr), sWarm, some defaultOptions) ∧
     GetBaseConfig envFail sWarm none = ((sWarm.config, sWarm.onceErr), sWarm, none)) :=
  ⟨(c1_memoization envFail envFail s0 none none none true).1 rfl,
   (c1_memoization envOk envFail sWarm none (some defaultOptions) none true).2 rfl⟩

/-- C2 (code bug): ResetConfig resets only the sync.Once and never clears
getConfigOnceErr, so after a failed first resolution, a reset, and a fully
successful second resolution, the call returns the NEW config paired with
the STALE pre-reset error instead of a nil error. -/
theorem c2_stale_error_after_reset :
    (loadConfigOnce envOk
        (ResetConfig (loadConfigOnce envFail s0 none true).2.1) none true).1 =
      (some emptyConfig, some (ConfigError.generatedFailed "load")) := by
  rfl

/-- C10: the first resolution call mutates the caller-supplied ConfigOptions
in place. On a cold cache, once the generated state loads, the caller-visible
options object has its LoadedVars field overwritten with the process-global
loaded variables on every continuation path, and when overlay application is
enabled, the caller set no profile and the generated state carries an active
profile, that profile name is written into the options object. -/
theorem c10_options_mutated (env : Env) (s : GlobalState) (opts : ConfigOptions)
    (allowProfile : Bool) (g : GeneratedConfig)
    (h1 : s.onceDone = false) (h2 : env.genLoad opts.profile = Except.ok g) :
    (loadConfigOnce env s (some opts) allowProfile).2.2 =
      some (adjustOptions env g opts allowProfile) ∧
    (adjustOptions env g opts allowProfile).loadedVars = env.loadedVars ∧
    (allowProfile = true → g.activeProfile ≠ "" → opts.profile = "" →
      (adjustOptions env g opts allowProfile).profile = g.activeProfile) := by
  refine ⟨?_, rfl, ?_⟩
  · have hr := runOnceBody_fst env s opts allowProfile g h2
    simp [loadConfigOnce, h1, hr]
  · intro ha hg hp
    simp [adjustOptions, ha, hg, hp]

/-- Witness for C10: a cold cache, empty caller profile, active profile p. -/
theorem c10_options_mutated_witness :
    (loadConfigOnce envProfile s0 (some defaultOptions) true).2.2 =
      some (adjustOptions envProfile { activeProfile := "p" } defaultOptions true) ∧
    (adjustOptions envProfile { activeProfile := "p" } defaultOptions true).loadedVars =
      envProfile.loadedVars ∧
    (true = true → ({ activeProfile := "p" } : GeneratedConfig).activeProfile ≠ "" →
      defaultOptions.profile = "" →
      (adjustOptions envProfile { activeProfile := "p" } defaultOptions true).profile =
        ({ activeProfile := "p" } : GeneratedConfig).activeProfile) :=
  c10_options_mutated envProfile s0 defaultOptions true { activeProfile := "p" } rfl rfl

/-- C3 counterexample: validate is NOT independent of the filesystem — on the
same ConfigModel (one component-chart deployment declaring the value file f)
its result differs between a filesystem where f holds an unknown field and
one where f is unreadable. -/
theorem c3_counterexample : validate fsBad ccConfig ≠ validate fsNone ccConfig := by
  decide

theorem validateDeployments_fs_irrel (fs1 fs2 : FS) :
    ∀ (ds : List DeploymentConfig), (∀ d ∈ ds, isComponentChart d.helm = false) →
      ∀ i, validateDeployments fs1 i ds = validateDeployments fs2 i ds := by
  intro ds
  induction ds with
  | nil => intro _ _; rfl
  | cons d rest ih =>
    intro h i
    have hd : isComponentChart d.helm = false := h d (List.mem_cons_self d rest)
    have ht : ∀ e ∈ rest, isComponentChart e.helm = false :=
      fun e he => h e (List.mem_cons_of_mem d he)
    simp only [validateDeployments, hd, Bool.false_eq_true, if_false]
    rw [ih ht (i + 1)]

/-- C3 amended: validate is a deterministic function of the ConfigModel AND
the filesystem state; only component-chart deployments consult the
filesystem, so on a configuration with no component-chart deployment the
result is independent of the filesystem. -/
theorem c3_amended_fs_independence (c : Config) (fs1 fs2 : FS)
    (h : hasComponentChart c = false) : validate fs1 c = validate fs2 c := by
  cases hds : c.deployments with
  | none => simp [validate, hds]
  | some ds =>
    have h' : ∀ d ∈ ds, isComponentChart d.helm = false := by
      rw [hasComponentChart, hds, List.any_eq_false] at h
      intro d hd
      simpa using h d hd
    simp [validate, hds, validateDeployments_fs_irrel fs1 fs2 ds h' 0]

/-- Witness for C3 amended at the empty configuration. -/
theorem c3_amended_witness :
    hasComponentChart emptyConfig = false ∧
    validate fsBad emptyConfig = validate fsNone emptyConfig :=
  ⟨rfl, c3_amended_fs_independence emptyConfig fsBad fsNone rfl⟩

theorem validateDeployments_cons_none (fs : FS) (i : Nat) (d : DeploymentConfig)
    (rest : List DeploymentConfig)
    (h : validateDeployments fs i (d :: rest) = none) :
    ¬ (d.helm = none ∧ d.kubectl = none) ∧
      validateDeployments fs (i + 1) rest = none := by
  simp only [validateDeployments] at h
  split at h
  next => simp at h
  next =>
    split at h
    next => simp at h
    next hboth =>
      split at h
      next => simp at h
      next =>
        split at h
        next => simp at h
        next =>
          split at h
          next =>
            split at h
            next => exact ⟨hboth, h⟩
            next => simp at h
          next => exact ⟨hboth, h⟩

theorem validateDeployments_none_kinds (fs : FS) :
    ∀ (ds : List DeploymentConfig) (i : Nat),
      validateDeployments fs i ds = none →
      ∀ d ∈ ds, ¬ (d.helm = none ∧ d.kubectl = none) := by
  intro ds
  induction ds with
  | nil => intro i _ d hd; exact absurd hd (List.not_mem_nil d)
  | cons d0 rest ih =>
    intro i h d hd
    obtain ⟨h1, h2⟩ := validateDeployments_cons_none fs i d0 rest h
    rcases List.mem_cons.mp hd with rfl | hmem
    · exact h1
    · exact ih (i + 1) h2 d hmem

theorem validate_none_deployments (fs : FS) (c : Config)
    (ds : List DeploymentConfig) (hds : c.deployments = some ds)
    (h : validate fs c = none) : validateDeployments fs 0 ds = none := by
  unfold validate at h
  rw [firstErr_eq_none] at h
  obtain ⟨-, h⟩ := h
  rw [firstErr_eq_none] at h
  obtain ⟨-, h⟩ := h
  rw [firstErr_eq_none] at h
  obtain ⟨-, h⟩ := h
  rw [firstErr_eq_none] at h
  obtain ⟨-, h⟩ := h
  simp only [hds] at h
  exact h

/-- C4 counterexample: a deployment with BOTH the helm and the kubectl kind
configured passes validation — the validator does not reject the both-set
case. -/
theorem c4_counterexample :
    bothDep.helm ≠ none ∧ bothDep.kubectl ≠ none ∧
      validate fsNone bothConfig = none := by
  decide

/-- C4 amended: the validator rejects a deployment with NEITHER kind set,
the error carrying the offending deployment's name (not its index); a
deployment with both kinds set is not rejected by the kind check, so a
successfully validated configuration only guarantees at least one kind per
deployment. -/
theorem c4_amended (fs : FS) (c : Config) :
    (validate fs c = none → ∀ ds, c.deployments = some ds →
      ∀ d ∈ ds, ¬ (d.helm = none ∧ d.kubectl = none)) ∧
    (∀ (d : DeploymentConfig) (rest : List DeploymentConfig) (i : Nat),
      d.name ≠ "" → d.helm = none → d.kubectl = none →
      validateDeployments fs i (d :: rest) =
        some (ConfigError.deploymentTypeMissing d.name)) := by
  constructor
  · intro h ds hds
    exact validateDeployments_none_kinds fs ds 0
      (validate_none_deployments fs c ds hds h)
  · intro d rest i hn hh hk
    simp only [validateDeployments]
    rw [if_neg hn, if_pos ⟨hh, hk⟩]

/-- Witness for C4 amended: the both-kinds deployment is accepted and the
neither-kind deployment is rejected with the error carrying its name. -/
theorem c4_amended_witness :
    ¬ (bothDep.helm = none ∧ bothDep.kubectl = none) ∧
    validateDeployments fsNone 0 [neitherDep] =
      some (ConfigError.deploymentTypeMissing "d") :=
  ⟨(c4_amended fsNone bothConfig).1 rfl [bothDep] rfl bothDep (by simp),
   (c4_amended fsNone emptyConfig).2 neitherDep [] 0 (by decide) rfl rfl⟩

theorem validatePorts_cons_none (i : Nat) (p : PortConfig)
    (rest : List PortConfig) (h : validatePorts i (p :: rest) = none) :
    ¬ (p.imageName = "" ∧ p.labelSelector = none) ∧ p.portMappings ≠ none ∧
      validatePorts (i + 1) rest = none := by
  simp only [validatePorts] at h
  split at h
  next => simp at h
  next h1 =>
    split at h
    next => simp at h
    next h2 => exact ⟨h1, h2, h⟩

theorem validatePorts_none_facts :
    ∀ (ps : List PortConfig) (i : Nat), validatePorts i ps = none →
      ∀ p ∈ ps, (p.imageName ≠ "" ∨ p.labelSelector ≠ none) ∧
        p.portMappings ≠ none := by
  intro ps
  induction ps with
  | nil => intro i _ p hp; exact absurd hp (List.not_mem_nil p)
  | cons p0 rest ih =>
    intro i h p hp
    obtain ⟨h1, h2, h3⟩ := validatePorts_cons_none i p0 rest h
    rcases List.mem_cons.mp hp with rfl | hmem
    · refine ⟨?_, h2⟩
      by_cases hi : p.imageName = ""
      · right; intro hl; exact h1 ⟨hi, hl⟩
      · left; exact hi
    · exact ih (i + 1) h3 p hmem

theorem validate_none_ports (fs : FS) (c : Config) (dev : DevConfig)
    (ports : List PortConfig) (hdev : c.dev = some dev)
    (hp : dev.ports = some ports) (h : validate fs c = none) :
    validatePorts 0 ports = none := by
  unfold validate at h
  rw [firstErr_eq_none] at h
  obtain ⟨h, -⟩ := h
  simp only [hdev] at h
  rw [firstErr_eq_none] at h
  obtain ⟨h, -⟩ := h
  simp only [hp] at h
  exact h

/-- C5 counterexample: a port-forward spec with a PRESENT but EMPTY
port-mapping list (zero port mappings) passes validation — the check is a
nil check, not an emptiness check. -/
theorem c5_counterexample :
    emptyMapPort.portMappings = some [] ∧ validate fsNone portCfg = none := by
  decide

/-- C5 amended: the validator rejects a port spec whose image name is empty
and whose label selector is absent, and one whose port-mapping field is
absent (nil); a present-but-empty port-mapping list is accepted, so an
accepted spec only guarantees a target and a non-nil port-mapping field. -/
theorem c5_amended (fs : FS) (c : Config) :
    (∀ dev ports, c.dev = some dev → dev.ports = some ports →
      validate fs c = none →
      ∀ p ∈ ports, (p.imageName ≠ "" ∨ p.labelSelector ≠ none) ∧
        p.portMappings ≠ none) ∧
    (∀ (p : PortConfig) (rest : List PortConfig) (i : Nat),
      (p.imageName = "" ∧ p.labelSelector = none →
        validatePorts i (p :: rest) = some (ConfigError.portTargetMissing i)) ∧
      (¬ (p.imageName = "" ∧ p.labelSelector = none) → p.portMappings = none →
        validatePorts i (p :: rest) = some (ConfigError.portMappingsEmpty i))) := by
  constructor
  · intro dev ports hdev hp h
    exact validatePorts_none_facts ports 0
      (validate_none_ports fs c dev ports hdev hp h)
  · intro p rest i
    constructor
    · intro hc
      simp only [validatePorts]
      rw [if_pos hc]
    · intro hc hm
      simp only [validatePorts]
      rw [if_neg hc, if_pos hm]

/-- Witness for C5 amended at the concrete specs. -/
theorem c5_amended_witness :
    ((emptyMapPort.imageName ≠ "" ∨ emptyMapPort.labelSelector ≠ none) ∧
      emptyMapPort.portMappings ≠ none) ∧
    validatePorts 0 [badPort] = some (ConfigError.portTargetMissing 0) :=
  ⟨(c5_amended fsNone portCfg).1
      { ports := some [emptyMapPort], sync := none, interactive := none }
      [emptyMapPort] rfl rfl rfl emptyMapPort (by simp),
   ((c5_amended fsNone portCfg).2 badPort [] 0).1 ⟨rfl, rfl⟩⟩

/-- C6: chart-value reconciliation. The value file defining replicas 1
merged with the inline block replicas 3, image x yields exactly
replicas 3, image x (files in list order first, inline last, inline winning
on conflict); an unreadable value file is skipped without error; the merged
result is strictly decoded and the example configuration validates; a strict
decode failure is a validation error carrying the offending deployment's
index. -/
theorem c6_chart_value_reconciliation :
    loadComponentValues fsA helmA =
      [("replicas", Val.vnat 3), ("image", Val.vstr "x")] ∧
    (∀ fs : FS, fs.read "A" = none → loadComponentValues fs helmA = inlineVals) ∧
    validate fsA cfgA = none ∧
    validateDeployments fsBad 0 [ccDep] =
      some (ConfigError.componentValuesIncorrect 0) := by
  refine ⟨by decide, ?_, by decide, by decide⟩
  intro fs h
  unfold loadComponentValues
  simp [helmA, absPath, h, inlineVals, mergeInto, setKey]

/-- Witness for C6 at the no-file filesystem. -/
theorem c6_witness :
    fsNone.read "A" = none ∧ loadComponentValues fsNone helmA = inlineVals :=
  ⟨rfl, c6_chart_value_reconciliation.2.1 fsNone rfl⟩

/-- C7 counterexample: on a tree whose directory p carries ONLY the legacy
marker, the locate-root operation returns found=true and NO error — it does
not surface the unsupported-legacy-format error. -/
theorem c7_counterexample :
    legacyOnlyFS.hasPrimary ["p"] = false ∧
    legacyOnlyFS.hasLegacy ["p"] = true ∧
    SetDevSpaceRoot none legacyOnlyFS [] ["a", "p"] = (true, ["p"], none) := by
  decide

/-- C7 amended: the locate-root walk treats a directory carrying the legacy
marker as a found root and returns found=true with no error; the explicit
unsupported-legacy-format error is surfaced later, by the config loader,
when the primary file is absent and the legacy file present at the chosen
root. -/
theorem c7_amended (dfs : DirFS) (cwd home : List String)
    (hne : cwd ≠ home) (hleg : dfs.hasLegacy cwd = true) :
    SetDevSpaceRoot none dfs home cwd = (true, cwd, none) ∧
    (∀ (env : Env) (g : GeneratedConfig) (basePath : String)
        (options : Option ConfigOptions),
      env.fs.read (joinPath basePath DefaultConfigPath) = none →
      (env.fs.read (joinPath basePath DefaultConfigsPath)).isSome = true →
      GetConfigFromPath env g basePath options =
        .error ConfigError.legacyConfigsNotSupported) := by
  constructor
  · have hex : configExistsInPath none dfs cwd = true := by
      cases hp : dfs.hasPrimary cwd <;> simp [configExistsInPath, hp, hleg]
    cases cwd with
    | nil => simp [SetDevSpaceRoot, walkUp, hne, hex]
    | cons c cs => simp [SetDevSpaceRoot, walkUp, hne, hex]
  · intro env g basePath options h1 h2
    simp [GetConfigFromPath, h1, h2]

/-- Witness for C7 amended at the legacy-only directory. -/
theorem c7_amended_witness :
    SetDevSpaceRoot none legacyOnlyFS [] ["p"] = (true, ["p"], none) ∧
    GetConfigFromPath envLegacy { activeProfile := "" } "." none =
      .error ConfigError.legacyConfigsNotSupported :=
  ⟨(c7_amended legacyOnlyFS ["p"] [] (by decide) (by decide)).1,
   (c7_amended legacyOnlyFS ["p"] [] (by decide) (by decide)).2
     envLegacy { activeProfile := "" } "." none rfl rfl⟩

/-- C8 counterexample: constructing a helm deployment client for a
component-chart deployment MUTATES the resolved configuration — the
deployment's chart field is overwritten in place with the DevSpace component
chart, no copy being made. -/
theorem c8_counterexample :
    (helmNew emptyConfig "ns" depCC).2 ≠ depCC ∧
    (helmNew emptyConfig "ns" depCC).2.helm =
      some { chart := some DevSpaceChartConfig, componentChart := some true,
             valuesFiles := none, values := none, tillerNamespace := "" } := by
  decide

/-- C8 amended: helm.New customizes the deployment config in place rather
than on a copy — exactly when the deployment opts into the component chart,
its helm.chart field is overwritten with DevSpaceChartConfig; otherwise the
deployment config is left unchanged, and in every case the name and kubectl
fields are untouched. -/
theorem c8_amended (config : Config) (kubeNamespace : String)
    (d : DeploymentConfig) :
    (helmNew config kubeNamespace d).2 =
      (if (d.helm.getD default).componentChart = some true then
        { d with
          helm := some ({ d.helm.getD default with
                          chart := some DevSpaceChartConfig }) }
      else d) ∧
    (helmNew config kubeNamespace d).2.name = d.name ∧
    (helmNew config kubeNamespace d).2.kubectl = d.kubectl := by
  refine ⟨rfl, ?_, ?_⟩ <;>
    by_cases h : (d.helm.getD default).componentChart = some true <;>
      simp [helmNew, h]

end DevSpace
